import Mathlib

/-!
Verification of the `react-native-firebase-analytics` telemetry facade.

This file shallowly embeds the repository's TypeScript sources:

* `src/infrastructure/services/FirebaseAnalyticsService.ts` (monolithic facade),
* `src/infrastructure/services/analytics-event.service.ts` (event router),
* `src/infrastructure/services/analytics-user.service.ts` (user-state router and
  the `PerformanceTracker` timing registry),
* `src/presentation/hooks/useScreenTime.ts` (screen-time hook),

as pure Lean functions over explicit state, with provider calls recorded in a
trace and provider failures (rejections) driven by an environment parameter.
-/

namespace RNFA

/-- JS primitive parameter values (`string | number | boolean | null`).
Numbers occurring in this code base (durations, elapsed seconds) are
non-negative integers, so they are modelled as `Nat`. -/
inductive Prim where
  | str (s : String)
  | num (n : Nat)
  | boolean (b : Bool)
  | nullv
deriving DecidableEq

/-- A JS object used as an event-parameter map: association list in key
insertion order, keys unique (maintained by `objSet`). -/
abbrev Obj := List (String × Prim)

/-- Read a property: first binding for the key (keys are unique in objects the
code builds, so first = only). Models `o[k]`. -/
def objGet {α : Type} : List (String × α) → String → Option α
  | [], _ => none
  | (k', v') :: rest, key => if key = k' then some v' else objGet rest key

/-- JS property assignment `o[k] = v`: overwrite in place if the key exists,
otherwise append (JS objects keep first-insertion key order). -/
def objSet {α : Type} : List (String × α) → String → α → List (String × α)
  | [], key, val => [(key, val)]
  | (k', v') :: rest, key, val =>
      if key = k' then (key, val) :: rest else (k', v') :: objSet rest key val

/-- Remove the binding for a key (models `Map.delete`; under the unique-key
invariant at most one binding exists). -/
def eraseKey {α : Type} : List (String × α) → String → List (String × α)
  | [], _ => []
  | (k', v') :: rest, key => if key = k' then rest else (k', v') :: eraseKey rest key

/-- Build an object from a list of writes, later writes overwriting earlier
ones: the semantics of a JS object literal with spreads, e.g.
`{operation: ..., duration_ms: ..., ...metadata}`. -/
def objOf {α : Type} (ps : List (String × α)) : List (String × α) :=
  ps.foldl (fun m kv => objSet m kv.1 kv.2) []

/-- Left-biased choice on `Option`, used to state "later writes win" lookups. -/
def orO {α : Type} : Option α → Option α → Option α
  | some v, _ => some v
  | none, o => o

/-- The value the last write to a key left in an object-literal build. -/
def lastGet {α : Type} (l : List (String × α)) (k : String) : Option α :=
  objGet l.reverse k

/-- Keys of an association list. -/
def keysOf {α : Type} (l : List (String × α)) : List String :=
  l.map Prod.fst

theorem objGet_objSet {α : Type} (m : List (String × α)) (k k2 : String) (v : α) :
    objGet (objSet m k v) k2 = if k2 = k then some v else objGet m k2 := by
  induction m with
  | nil => simp [objSet, objGet]
  | cons hd tl ih =>
      obtain ⟨k', v'⟩ := hd
      by_cases h : k = k'
      · subst h
        by_cases h2 : k2 = k <;> simp [objSet, objGet, h2]
      · by_cases h2 : k2 = k'
        · subst h2
          have hne : ¬ k2 = k := fun hh => h hh.symm
          simp [objSet, objGet, h, hne]
        · simp [objSet, objGet, h, h2, ih]

theorem objGet_append {α : Type} (l1 l2 : List (String × α)) (k : String) :
    objGet (l1 ++ l2) k = orO (objGet l1 k) (objGet l2 k) := by
  induction l1 with
  | nil => simp [objGet, orO]
  | cons hd tl ih =>
      obtain ⟨k', v'⟩ := hd
      by_cases h : k = k' <;> simp [objGet, h, ih, orO]

theorem objGet_foldl {α : Type} (ps : List (String × α)) (m : List (String × α)) (k : String) :
    objGet (ps.foldl (fun acc kv => objSet acc kv.1 kv.2) m) k =
      orO (lastGet ps k) (objGet m k) := by
  induction ps generalizing m with
  | nil => simp [lastGet, objGet, orO]
  | cons hd tl ih =>
      simp only [List.foldl_cons, ih, lastGet, List.reverse_cons, objGet_append,
        objGet_objSet]
      cases objGet tl.reverse k with
      | some v => simp [orO]
      | none =>
          by_cases h : k = hd.1 <;> simp [objGet, orO, h]

theorem objGet_objOf {α : Type} (ps : List (String × α)) (k : String) :
    objGet (objOf ps) k = orO (lastGet ps k) none := by
  simpa [objOf] using objGet_foldl ps [] k

theorem objGet_eq_none_of_not_mem {α : Type} (m : List (String × α)) (k : String)
    (h : k ∉ keysOf m) : objGet m k = none := by
  induction m with
  | nil => simp [objGet]
  | cons hd tl ih =>
      simp only [keysOf, List.map_cons, List.mem_cons] at h
      push_neg at h
      simp [objGet, h.1, ih (by simpa [keysOf] using h.2)]

theorem objGet_eraseKey_objSet {α : Type} (m : List (String × α)) (k : String) (v : α)
    (h : (keysOf m).Nodup) : objGet (eraseKey (objSet m k v) k) k = none := by
  induction m with
  | nil => simp [objSet, eraseKey, objGet]
  | cons hd tl ih =>
      obtain ⟨k', v'⟩ := hd
      simp only [keysOf, List.map_cons, List.nodup_cons] at h
      by_cases hk : k = k'
      · subst hk
        simp only [objSet, if_pos rfl, eraseKey, if_pos rfl]
        exact objGet_eq_none_of_not_mem tl k h.1
      · simp [objSet, hk, eraseKey, objGet, ih (by simpa [keysOf] using h.2)]

/-! ## Timing Registry (`PerformanceTracker`, analytics-user.service.ts)

The tracker keeps `activeTimings : Map<string, number>` from operation id to
start timestamp (`Date.now()` milliseconds) and emits `performance_metric`
events through `firebaseAnalyticsService.logEvent`.  Here the registry is the
association list `TimingMap`, the ambient clock is an explicit `Nat` argument,
and emitted events are returned as a list of `(name, params)` pairs. -/

abbrev TimingMap := List (String × Nat)

/-- `start(operationId)`: `this.activeTimings.set(operationId, Date.now())`. -/
def PerformanceTracker.start (m : TimingMap) (operationId : String) (now : Nat) :
    TimingMap :=
  objSet m operationId now

/-- `end(operationId, metadata?)`: look up the start time; `if (!startTime)
return;` (note: JS falsiness, so a stored `0` behaves like a missing entry);
otherwise compute the duration, delete the entry, and log
`performance_metric` with `{operation, duration_ms, ...metadata}`. -/
def PerformanceTracker.endOp (m : TimingMap) (operationId : String) (metadata : Obj)
    (now : Nat) : TimingMap × List (String × Obj) :=
  match objGet m operationId with
  | none => (m, [])
  | some startTime =>
      if startTime = 0 then (m, [])
      else
        (eraseKey m operationId,
         [("performance_metric",
           objOf (("operation", Prim.str operationId) ::
                  ("duration_ms", Prim.num (now - startTime)) :: metadata))])

/-- JS thrown values: an `Error` object carrying a message, or any other
value (`error instanceof Error` fails). -/
inductive JsError where
  | errObj (message : String)
  | nonErr (v : Prim)
deriving DecidableEq

/-- `error instanceof Error ? error.message : 'Unknown error'`. -/
def JsError.messageOrUnknown : JsError → String
  | .errObj m => m
  | .nonErr _ => "Unknown error"

/-- `track(operationId, operation)`: `start`, run the async unit of work, then
`end` with `{success:true}` returning the result, or `end` with
`{success:false, error_message: ...}` and re-throw.  The unit of work is
modelled by its outcome (`Except JsError α`) and the wall-clock milliseconds
it consumes (`elapsed`); `startNow` is `Date.now()` at the `start` call. -/
def PerformanceTracker.track {α : Type} (m : TimingMap) (operationId : String)
    (startNow : Nat) (elapsed : Nat) (outcome : Except JsError α) :
    (TimingMap × List (String × Obj)) × Except JsError α :=
  let m1 := PerformanceTracker.start m operationId startNow
  match outcome with
  | .ok r =>
      (PerformanceTracker.endOp m1 operationId [("success", Prim.boolean true)]
        (startNow + elapsed), .ok r)
  | .error err =>
      (PerformanceTracker.endOp m1 operationId
        [("success", Prim.boolean false),
         ("error_message", Prim.str err.messageOrUnknown)]
        (startNow + elapsed), .error err)

/-! ## Monolithic facade (`FirebaseAnalyticsService.ts`)

Module-level state fixed at load time: `nativeAnalytics` and `webAnalytics`
are the optionally-loadable provider modules.  Instance state mirrors the
class fields `isInitialized`, `userId`, `userProperties`, `analytics`.
Every provider invocation is recorded as a `Call`; whether an awaited
provider call rejects is decided by the environment's `throws` oracle. -/

/-- Trace entries: one per provider-module invocation the facade makes. -/
inductive Call where
  | nativeGetAnalytics
  | webIsSupported
  | webGetAnalytics
  | nativeSetUserId (h : Nat) (uid : String)
  | webSetUserId (h : Nat) (uid : String)
  | nativeSetUserProperties (h : Nat) (props : List (String × String))
  | webSetUserProperties (h : Nat) (props : List (String × String))
  | nativeLogEvent (h : Nat) (name : String) (params : Obj)
  | webLogEvent (h : Nat) (name : String) (params : Obj)
  | nativeResetAnalyticsData (h : Nat)
deriving DecidableEq

/-- Count occurrences of one call in a trace. -/
def countCall (c : Call) : List Call → Nat
  | [] => 0
  | d :: rest => (if d = c then 1 else 0) + countCall c rest

/-- Load-time environment and provider behaviour.
`nativeAvailable`/`webAvailable`: whether the optional modules loaded.
`nativeGetAnalyticsResult`: `analytics()` may throw or return a (possibly
null) instance.  `webHasIsSupported`: truthiness of the destructured
`isSupported` export; `webIsSupportedResult` its outcome.  `firebaseApp`:
result of `getFirebaseApp()`.  `webGetAnalyticsResult`: `getAnalytics(app)`
may throw.  `throws c`: whether the awaited provider call `c` rejects. -/
structure Env where
  nativeAvailable : Bool
  webAvailable : Bool
  nativeGetAnalyticsResult : Except Unit (Option Nat)
  webHasIsSupported : Bool
  webIsSupportedResult : Except Unit Bool
  firebaseApp : Option Nat
  webGetAnalyticsResult : Except Unit Nat
  throws : Call → Bool

/-- The class fields of `FirebaseAnalyticsService`. -/
structure SvcState where
  isInitialized : Bool
  userId : Option String
  userProperties : List (String × String)
  analytics : Option Nat
deriving DecidableEq

/-- Field initializers: `false`, `null`, `{}`, `null`. -/
def initState : SvcState := ⟨false, none, [], none⟩

/-- `setUserProperty(key, value)`: early-return when `this.analytics` is
null; otherwise write the local cache, then dispatch
`setUserProperties(analytics, {[key]: value})` to whichever module is
loaded (native first).  The whole body is try/catch'd, so a rejecting
provider call changes nothing beyond the already-performed cache write. -/
def FirebaseAnalyticsService.setUserProperty (e : Env) (s : SvcState)
    (key value : String) : SvcState × List Call :=
  match s.analytics with
  | none => (s, [])
  | some h =>
      let s1 : SvcState := { s with userProperties := objSet s.userProperties key value }
      if e.nativeAvailable then
        (s1, [Call.nativeSetUserProperties h [(key, value)]])
      else if e.webAvailable then
        (s1, [Call.webSetUserProperties h [(key, value)]])
      else
        (s1, [])

/-- `setUserProperties(properties)`: `for (const [key, value] of
Object.entries(properties)) await this.setUserProperty(key, value)`. -/
def FirebaseAnalyticsService.setUserProperties (e : Env) (s : SvcState)
    (properties : List (String × String)) : SvcState × List Call :=
  match properties with
  | [] => (s, [])
  | (k, v) :: rest =>
      let r1 := FirebaseAnalyticsService.setUserProperty e s k v
      let r2 := FirebaseAnalyticsService.setUserProperties e r1.1 rest
      (r2.1, r1.2 ++ r2.2)

/-- The three local resets at the end of `clearUserData`'s try block:
`this.userId = null; this.userProperties = {}; this.isInitialized = false`.
Note `this.analytics` is not touched. -/
def FirebaseAnalyticsService.resetLocal (s : SvcState) : SvcState :=
  { s with userId := none, userProperties := [], isInitialized := false }

/-- `clearUserData()`: early-return when `this.analytics` is null; otherwise
clear the remote user id/properties (plus `resetAnalyticsData` on native,
which the loaded native module always defines), then reset the local fields.
A rejecting provider call jumps to the silent catch, skipping the local
resets. -/
def FirebaseAnalyticsService.clearUserData (e : Env) (s : SvcState) :
    SvcState × List Call :=
  match s.analytics with
  | none => (s, [])
  | some h =>
      if e.nativeAvailable then
        let c1 := Call.nativeSetUserId h ""
        if e.throws c1 then (s, [c1]) else
        let c2 := Call.nativeSetUserProperties h []
        if e.throws c2 then (s, [c1, c2]) else
        let c3 := Call.nativeResetAnalyticsData h
        if e.throws c3 then (s, [c1, c2, c3]) else
        (FirebaseAnalyticsService.resetLocal s, [c1, c2, c3])
      else if e.webAvailable then
        let c1 := Call.webSetUserId h ""
        if e.throws c1 then (s, [c1]) else
        let c2 := Call.webSetUserProperties h []
        if e.throws c2 then (s, [c1, c2]) else
        (FirebaseAnalyticsService.resetLocal s, [c1, c2])
      else
        (FirebaseAnalyticsService.resetLocal s, [])

/-- `logEvent(eventName, params?)`: early-return when `this.analytics` is
null; otherwise dispatch to the loaded module's `logEvent` (native first).
Both dispatch arms and the whole body are try/catch'd, so rejections leave
the state untouched. -/
def FirebaseAnalyticsService.logEvent (e : Env) (s : SvcState) (eventName : String)
    (params : Obj) : SvcState × List Call :=
  match s.analytics with
  | none => (s, [])
  | some h =>
      if e.nativeAvailable then (s, [Call.nativeLogEvent h eventName params])
      else if e.webAvailable then (s, [Call.webLogEvent h eventName params])
      else (s, [])

/-- `initNative(userId?)`: guard on module availability, then inside a try:
`this.analytics = nativeAnalytics.getAnalytics()`; if a userId was passed,
store it and forward `setUserId` then tag `user_type=authenticated`,
otherwise tag `user_type=guest`; the catch is silent and
`this.isInitialized = true` always runs afterwards.  When `getAnalytics()`
returned null, `instance.setUserId(...)` throws on the null instance (after
`this.userId` was already assigned), landing in the catch. -/
def FirebaseAnalyticsService.initNative (e : Env) (s : SvcState)
    (userId : Option String) : SvcState × List Call :=
  if e.nativeAvailable = false then ({ s with isInitialized := true }, [])
  else
    match e.nativeGetAnalyticsResult with
    | .error _ => ({ s with isInitialized := true }, [Call.nativeGetAnalytics])
    | .ok handle =>
        let s1 : SvcState := { s with analytics := handle }
        match userId with
        | none =>
            let r := FirebaseAnalyticsService.setUserProperty e s1 "user_type" "guest"
            ({ r.1 with isInitialized := true }, Call.nativeGetAnalytics :: r.2)
        | some uid =>
            let s2 : SvcState := { s1 with userId := some uid }
            match handle with
            | none => ({ s2 with isInitialized := true }, [Call.nativeGetAnalytics])
            | some h =>
                let c := Call.nativeSetUserId h uid
                if e.throws c then
                  ({ s2 with isInitialized := true }, [Call.nativeGetAnalytics, c])
                else
                  let r := FirebaseAnalyticsService.setUserProperty e s2
                    "user_type" "authenticated"
                  ({ r.1 with isInitialized := true },
                   Call.nativeGetAnalytics :: c :: r.2)

/-- The tail of `initWeb` once acquisition is settled: `if (this.analytics)`
set user id / `user_type` property inside an inner try (silent catch), then
`this.isInitialized = true`. -/
def FirebaseAnalyticsService.initWebAfterAcquire (e : Env) (s : SvcState)
    (userId : Option String) (pre : List Call) : SvcState × List Call :=
  match s.analytics with
  | none => ({ s with isInitialized := true }, pre)
  | some h =>
      match userId with
      | some uid =>
          let s2 : SvcState := { s with userId := some uid }
          let c := Call.webSetUserId h uid
          if e.throws c then ({ s2 with isInitialized := true }, pre ++ [c])
          else
            let r := FirebaseAnalyticsService.setUserProperty e s2
              "user_type" "authenticated"
            ({ r.1 with isInitialized := true }, pre ++ c :: r.2)
      | none =>
          let r := FirebaseAnalyticsService.setUserProperty e s "user_type" "guest"
          ({ r.1 with isInitialized := true }, pre ++ r.2)

/-- The acquisition part of `initWeb`: require `getFirebaseApp()`; call
`getAnalytics(app)` only when `this.analytics` is not already set (inner
try; on throw mark initialized and return). -/
def FirebaseAnalyticsService.initWebAcquire (e : Env) (s : SvcState)
    (userId : Option String) (pre : List Call) : SvcState × List Call :=
  match e.firebaseApp with
  | none => ({ s with isInitialized := true }, pre)
  | some _ =>
      match s.analytics with
      | some _ => FirebaseAnalyticsService.initWebAfterAcquire e s userId pre
      | none =>
          match e.webGetAnalyticsResult with
          | .error _ =>
              ({ s with isInitialized := true }, pre ++ [Call.webGetAnalytics])
          | .ok h =>
              FirebaseAnalyticsService.initWebAfterAcquire e
                { s with analytics := some h } userId (pre ++ [Call.webGetAnalytics])

/-- `initWeb(userId?)`: guard on module availability; call `isSupported()`
when the export is truthy (a rejection or a `false` result marks
initialized and returns); then acquire and finish. -/
def FirebaseAnalyticsService.initWeb (e : Env) (s : SvcState)
    (userId : Option String) : SvcState × List Call :=
  if e.webAvailable = false then ({ s with isInitialized := true }, [])
  else if e.webHasIsSupported then
    match e.webIsSupportedResult with
    | .error _ => ({ s with isInitialized := true }, [Call.webIsSupported])
    | .ok false => ({ s with isInitialized := true }, [Call.webIsSupported])
    | .ok true => FirebaseAnalyticsService.initWebAcquire e s userId [Call.webIsSupported]
  else FirebaseAnalyticsService.initWebAcquire e s userId []

/-- `init(userId?)`: try native first, then web, else just set the flag; the
outer catch also only sets the flag.  There is no check of
`this.isInitialized` anywhere on this path. -/
def FirebaseAnalyticsService.init (e : Env) (s : SvcState) (userId : Option String) :
    SvcState × List Call :=
  if e.nativeAvailable then FirebaseAnalyticsService.initNative e s userId
  else if e.webAvailable then FirebaseAnalyticsService.initWeb e s userId
  else ({ s with isInitialized := true }, [])

/-- `getCurrentUserId()`: pure read of `this.userId`. -/
def FirebaseAnalyticsService.getCurrentUserId (s : SvcState) : Option String :=
  s.userId

/-! ## Routers (`analytics-event.service.ts`, `analytics-user.service.ts`)

The routers take an `AnalyticsInstance | null` and dispatch to the adapter
matching its platform.  A result of `.error ()` at the public boundary
would mean an exception escaped to the caller; bodies that can throw are
written in `Except (List RCall) (List RCall)` (trace on both sides) and the
source's `catch { /* silent */ }` is `catchSilent`. -/

inductive RPlatform where
  | native
  | web
deriving DecidableEq

/-- `AnalyticsInstance { instance, platform }` from
analytics-initializer.service.ts (the handle is opaque; modelled as `Nat`). -/
structure AnalyticsInstance where
  platform : RPlatform
  inst : Nat
deriving DecidableEq

/-- Adapter-call trace entries for the routers. -/
inductive RCall where
  | nLogEvent (h : Nat) (name : String) (params : Obj)
  | wLogEvent (h : Nat) (name : String) (params : Obj)
  | nSetUserId (h : Nat) (uid : String)
  | wSetUserId (h : Nat) (uid : String)
  | nSetUserProperties (h : Nat) (props : List (String × String))
  | wSetUserProperties (h : Nat) (props : List (String × String))
  | nResetAnalyticsData (h : Nat)
deriving DecidableEq

/-- Adapter availability (the module-level `nativeAnalyticsAdapter` /
`webAnalyticsAdapter`, each possibly null) and the rejection oracle. -/
structure REnv where
  nativeAdapter : Bool
  webAdapter : Bool
  throws : RCall → Bool

/-- Whether the adapter matching the instance's platform is loaded. -/
def REnv.adapterOn (e : REnv) (a : AnalyticsInstance) : Bool :=
  match a.platform with
  | .native => e.nativeAdapter
  | .web => e.webAdapter

/-- `catch (_error) { /* silent */ }`: a throwing body is swallowed, keeping
the calls attempted so far. -/
def catchSilent : Except (List RCall) (List RCall) → Except Unit (List RCall)
  | .ok t => .ok t
  | .error t => .ok t

/-- Body of `AnalyticsEventService.logEvent` after the null check:
`if (platform === 'native' && nativeAnalyticsAdapter) await
nativeAnalyticsAdapter.logEvent(...)` else the web arm, else nothing. -/
def AnalyticsEventService.logEventBody (e : REnv) (a : AnalyticsInstance)
    (name : String) (params : Obj) : Except (List RCall) (List RCall) :=
  match a.platform with
  | .native =>
      if e.nativeAdapter then
        let c := RCall.nLogEvent a.inst name params
        if e.throws c then .error [c] else .ok [c]
      else .ok []
  | .web =>
      if e.webAdapter then
        let c := RCall.wLogEvent a.inst name params
        if e.throws c then .error [c] else .ok [c]
      else .ok []

/-- `AnalyticsEventService.logEvent`: null instance returns immediately
(diagnostic warn only); otherwise the dispatch runs inside try/catch. -/
def AnalyticsEventService.logEvent (e : REnv) (inst : Option AnalyticsInstance)
    (name : String) (params : Obj) : Except Unit (List RCall) :=
  match inst with
  | none => .ok []
  | some a => catchSilent (AnalyticsEventService.logEventBody e a name params)

/-- Body of `AnalyticsUserService.setUserId` after the null check. -/
def AnalyticsUserService.setUserIdBody (e : REnv) (a : AnalyticsInstance)
    (uid : String) : Except (List RCall) (List RCall) :=
  match a.platform with
  | .native =>
      if e.nativeAdapter then
        let c := RCall.nSetUserId a.inst uid
        if e.throws c then .error [c] else .ok [c]
      else .ok []
  | .web =>
      if e.webAdapter then
        let c := RCall.wSetUserId a.inst uid
        if e.throws c then .error [c] else .ok [c]
      else .ok []

/-- `AnalyticsUserService.setUserId`. -/
def AnalyticsUserService.setUserId (e : REnv) (inst : Option AnalyticsInstance)
    (uid : String) : Except Unit (List RCall) :=
  match inst with
  | none => .ok []
  | some a => catchSilent (AnalyticsUserService.setUserIdBody e a uid)

/-- Body of `AnalyticsUserService.setUserProperty` after the null check:
one adapter `setUserProperties` call carrying the single-entry object
`{[key]: value}`. -/
def AnalyticsUserService.setUserPropertyBody (e : REnv) (a : AnalyticsInstance)
    (key value : String) : Except (List RCall) (List RCall) :=
  match a.platform with
  | .native =>
      if e.nativeAdapter then
        let c := RCall.nSetUserProperties a.inst [(key, value)]
        if e.throws c then .error [c] else .ok [c]
      else .ok []
  | .web =>
      if e.webAdapter then
        let c := RCall.wSetUserProperties a.inst [(key, value)]
        if e.throws c then .error [c] else .ok [c]
      else .ok []

/-- `AnalyticsUserService.setUserProperty`. -/
def AnalyticsUserService.setUserProperty (e : REnv) (inst : Option AnalyticsInstance)
    (key value : String) : Except Unit (List RCall) :=
  match inst with
  | none => .ok []
  | some a => catchSilent (AnalyticsUserService.setUserPropertyBody e a key value)

/-- `AnalyticsUserService.setUserProperties`: `for (const [key, value] of
Object.entries(properties)) await this.setUserProperty(instance, key,
value)`.  The loop itself has no try/catch, so a throwing iteration would
propagate — but `setUserProperty` never throws. -/
def AnalyticsUserService.setUserProperties (e : REnv) (inst : Option AnalyticsInstance)
    (properties : List (String × String)) : Except Unit (List RCall) :=
  match properties with
  | [] => .ok []
  | (k, v) :: rest =>
      match AnalyticsUserService.setUserProperty e inst k v with
      | .error u => .error u
      | .ok t =>
          match AnalyticsUserService.setUserProperties e inst rest with
          | .error u => .error u
          | .ok t2 => .ok (t ++ t2)

/-- Body of `AnalyticsUserService.clearUserData` after the null check:
clear the remote id, clear the properties, and (native, where the adapter
always defines it) `resetAnalyticsData`; a rejection aborts the rest. -/
def AnalyticsUserService.clearUserDataBody (e : REnv) (a : AnalyticsInstance) :
    Except (List RCall) (List RCall) :=
  match a.platform with
  | .native =>
      if e.nativeAdapter then
        let c1 := RCall.nSetUserId a.inst ""
        if e.throws c1 then .error [c1] else
        let c2 := RCall.nSetUserProperties a.inst []
        if e.throws c2 then .error [c1, c2] else
        let c3 := RCall.nResetAnalyticsData a.inst
        if e.throws c3 then .error [c1, c2, c3] else .ok [c1, c2, c3]
      else .ok []
  | .web =>
      if e.webAdapter then
        let c1 := RCall.wSetUserId a.inst ""
        if e.throws c1 then .error [c1] else
        let c2 := RCall.wSetUserProperties a.inst []
        if e.throws c2 then .error [c1, c2] else .ok [c1, c2]
      else .ok []

/-- `AnalyticsUserService.clearUserData`. -/
def AnalyticsUserService.clearUserData (e : REnv) (inst : Option AnalyticsInstance) :
    Except Unit (List RCall) :=
  match inst with
  | none => .ok []
  | some a => catchSilent (AnalyticsUserService.clearUserDataBody e a)

/-- The single adapter call `setUserProperty` makes for one `[key, value]`
entry when the instance's adapter is loaded. -/
def AnalyticsUserService.propCall (a : AnalyticsInstance) (kv : String × String) :
    RCall :=
  match a.platform with
  | .native => RCall.nSetUserProperties a.inst [(kv.1, kv.2)]
  | .web => RCall.wSetUserProperties a.inst [(kv.1, kv.2)]

/-! ## Screen-time hook (`useScreenTime.ts`)

On focus the hook stores `Date.now()` in a ref; on blur it computes
`Math.round((Date.now() - start) / 1000)` seconds, calls
`firebaseAnalyticsService.logScreenTime` only when at least `1`, and nulls
the ref.  Emission is modelled at the hook boundary: the list of
`(name, params)` pairs handed to the facade's derived-event call. -/

/-- `Math.round(ms / 1000)` for non-negative integer `ms` (JS rounds half
away from zero upward, so this is `⌊(ms + 500) / 1000⌋`). -/
def roundMsToSeconds (ms : Nat) : Nat := (ms + 500) / 1000

/-- Focus callback: `startTimeRef.current = Date.now()`. -/
def useScreenTime.focus (now : Nat) : Option Nat := some now

/-- Blur (cleanup) callback: returns the updated ref and the emitted
`screen_time` events.  `logScreenTime` forwards
`{screen_name, screen_class: screenClass || screenName,
time_spent_seconds}`. -/
def useScreenTime.blur (screenName : String) (screenClass : Option String)
    (startTimeRef : Option Nat) (now : Nat) : Option Nat × List (String × Obj) :=
  match startTimeRef with
  | none => (startTimeRef, [])
  | some t0 =>
      let timeSpent := roundMsToSeconds (now - t0)
      if 1 ≤ timeSpent then
        (none,
         [("screen_time",
           objOf [("screen_name", Prim.str screenName),
                  ("screen_class", Prim.str (screenClass.getD screenName)),
                  ("time_spent_seconds", Prim.num timeSpent)])])
      else (none, [])

/-! ## Helper lemmas -/

theorem orO_none_right {α : Type} (o : Option α) : orO o none = o := by
  cases o <;> rfl

theorem orO_assoc {α : Type} (a b c : Option α) :
    orO (orO a b) c = orO a (orO b c) := by
  cases a <;> rfl

theorem catchSilent_ok (x : Except (List RCall) (List RCall)) :
    ∃ t, catchSilent x = .ok t := by
  cases x with
  | ok t => exact ⟨t, rfl⟩
  | error t => exact ⟨t, rfl⟩

theorem endOp_eq_of_lookup (m : TimingMap) (id : String) (md : Obj) (now t : Nat)
    (h : objGet m id = some t) (ht : t ≠ 0) :
    PerformanceTracker.endOp m id md now =
      (eraseKey m id,
       [("performance_metric",
         objOf (("operation", Prim.str id) ::
                ("duration_ms", Prim.num (now - t)) :: md))]) := by
  simp [PerformanceTracker.endOp, h, ht]

theorem objGet_start_self (m : TimingMap) (id : String) (t : Nat) :
    objGet (PerformanceTracker.start m id t) id = some t := by
  simp [PerformanceTracker.start, objGet_objSet]

/-! ## Claim theorems: Timing Registry -/

/-- Claim C5, counterexample: `start(id)` at clock time `t = 0` stores `0`,
and `end(id)` then looks it up and hits `if (!startTime) return;` — `0` is
falsy, so no `performance_metric` event is emitted and the entry is not
removed, although the claim demands that an `end` matching a prior `start`
removes the entry and emits exactly one event. -/
theorem endOp_zero_start_cex :
    PerformanceTracker.endOp (PerformanceTracker.start [] "op" 0) "op" [] 1000
      = ([("op", 0)], []) := by
  decide

/-- Claim C5 (amended): `end(id, metadata)` with no active entry for `id`
emits nothing and changes nothing; and if `start(id)` ran at a NONZERO
clock time `t` (the zero-start case is the counterexample above) and
`end(id, metadata)` runs at `t + T`, the entry is removed (stated under the
`Map`'s unique-key invariant) and exactly one `performance_metric` event is
emitted whose params are `{operation: id, duration_ms: T}` overlaid by
`metadata`, metadata keys winning on collision — including a caller-supplied
`duration_ms` overriding the computed one. -/
theorem endOp_semantics :
    (∀ (m : TimingMap) (id : String) (md : Obj) (now : Nat),
      objGet m id = none → PerformanceTracker.endOp m id md now = (m, [])) ∧
    (∀ (m : TimingMap) (id : String) (md : Obj) (t T : Nat), 0 < t →
      (keysOf m).Nodup →
      objGet (PerformanceTracker.endOp (PerformanceTracker.start m id t) id md
          (t + T)).1 id = none ∧
      ∃ p, (PerformanceTracker.endOp (PerformanceTracker.start m id t) id md
              (t + T)).2 = [("performance_metric", p)] ∧
        ∀ k, objGet p k =
          orO (lastGet md k)
            (if k = "operation" then some (Prim.str id)
             else if k = "duration_ms" then some (Prim.num T) else none)) := by
  constructor
  · intro m id md now h
    simp [PerformanceTracker.endOp, h]
  · intro m id md t T ht hnd
    have hl := objGet_start_self m id t
    have he := endOp_eq_of_lookup (PerformanceTracker.start m id t) id md (t + T) t hl
      (Nat.pos_iff_ne_zero.mp ht)
    refine ⟨?_, ?_⟩
    · rw [he]
      exact objGet_eraseKey_objSet m id t hnd
    · refine ⟨objOf (("operation", Prim.str id) ::
        ("duration_ms", Prim.num (t + T - t)) :: md), by rw [he], ?_⟩
      intro k
      rw [objGet_objOf, orO_none_right]
      have hrev : (("operation", Prim.str id) ::
          ("duration_ms", Prim.num (t + T - t)) :: md).reverse
          = (md.reverse ++ [("duration_ms", Prim.num (t + T - t))])
            ++ [("operation", Prim.str id)] := by
        simp
      rw [lastGet, hrev, objGet_append, objGet_append, orO_assoc]
      have hT : t + T - t = T := by omega
      rw [hT]
      by_cases h1 : k = "duration_ms"
      · subst h1
        simp [objGet, orO, lastGet]
      · by_cases h2 : k = "operation"
        · subst h2
          simp [objGet, orO, lastGet]
        · simp [objGet, orO, lastGet, h1, h2]

/-- Claim C5 witness: start at clock 3, end 1000 ms later with a
caller-supplied `duration_ms: 5`; the entry is gone and the metadata's
`duration_ms` wins over the computed 1000. -/
theorem endOp_semantics_w :
    objGet (PerformanceTracker.endOp (PerformanceTracker.start [] "op" 3) "op"
        [("duration_ms", Prim.num 5)] (3 + 1000)).1 "op" = none ∧
    ∃ p, (PerformanceTracker.endOp (PerformanceTracker.start [] "op" 3) "op"
            [("duration_ms", Prim.num 5)] (3 + 1000)).2
          = [("performance_metric", p)] ∧
      objGet p "duration_ms" = some (Prim.num 5) := by
  obtain ⟨h1, p, h2, h3⟩ :=
    endOp_semantics.2 [] "op" [("duration_ms", Prim.num 5)] 3 1000 (by decide) (by decide)
  refine ⟨h1, p, h2, ?_⟩
  have := h3 "duration_ms"
  simpa [lastGet, objGet, orO] using this

/-- Claim C10: an entry whose recorded start time is exactly `0` is treated
by `end(id)` as if no entry existed (`if (!startTime) return;` tests
truthiness, and `0` is falsy): no `performance_metric` event is emitted and
the entry is not removed from the registry. -/
theorem endOp_zero_entry_noop (m : TimingMap) (id : String) (md : Obj) (now : Nat)
    (h : objGet m id = some 0) :
    PerformanceTracker.endOp m id md now = (m, []) := by
  simp [PerformanceTracker.endOp, h]

/-- Claim C10 witness: a registry holding `id ↦ 0` is returned unchanged and
no event is emitted. -/
theorem endOp_zero_entry_noop_w :
    PerformanceTracker.endOp [("warm", 0)] "warm" [("x", Prim.num 1)] 1000
      = ([("warm", 0)], []) :=
  endOp_zero_entry_noop [("warm", 0)] "warm" [("x", Prim.num 1)] 1000 (by decide)

/-- Claim C6, counterexample: when `track` starts at clock time `0`, the
stored start timestamp `0` is falsy, so the matching `end` emits no
`performance_metric` event at all, although the claim demands one success
event whenever the wrapped operation resolves (the resolved value is still
returned unchanged). -/
theorem track_zero_clock_cex :
    (PerformanceTracker.track ([] : TimingMap) "op" 0 5 (Except.ok (0 : Nat))).1.2 = []
      ∧ (PerformanceTracker.track ([] : TimingMap) "op" 0 5
          (Except.ok (0 : Nat))).2 = Except.ok 0 := by
  exact ⟨rfl, rfl⟩

/-- Claim C6 (amended): `track(id, fn)` always passes `fn`'s outcome through
unchanged — a resolved value is returned as is and a rejection is re-raised
with the same error; and provided the clock at the `start` call is NONZERO
(the zero case is the counterexample above), it emits exactly one
`performance_metric` event, carrying `success:true` on resolution, and
`success:false` plus `error_message` equal to the error's message — or
`"Unknown error"` when the thrown value is not an `Error` — on rejection. -/
theorem track_semantics {α : Type} (m : TimingMap) (id : String) (t d : Nat)
    (outcome : Except JsError α) :
    ((PerformanceTracker.track m id t d outcome).2 = outcome) ∧
    (0 < t → ∀ r, outcome = .ok r → ∃ p,
      (PerformanceTracker.track m id t d outcome).1.2 = [("performance_metric", p)] ∧
      objGet p "success" = some (Prim.boolean true)) ∧
    (0 < t → ∀ err, outcome = .error err → ∃ p,
      (PerformanceTracker.track m id t d outcome).1.2 = [("performance_metric", p)] ∧
      objGet p "success" = some (Prim.boolean false) ∧
      objGet p "error_message" = some (Prim.str err.messageOrUnknown)) := by
  have hl := objGet_start_self m id t
  refine ⟨?_, ?_, ?_⟩
  · cases outcome <;> rfl
  · intro ht r hr
    subst hr
    have he := endOp_eq_of_lookup (PerformanceTracker.start m id t) id
      [("success", Prim.boolean true)] (t + d) t hl (Nat.pos_iff_ne_zero.mp ht)
    refine ⟨objOf (("operation", Prim.str id) ::
      ("duration_ms", Prim.num (t + d - t)) :: [("success", Prim.boolean true)]), ?_, ?_⟩
    · have hun : (PerformanceTracker.track m id t d (Except.ok r)).1.2
          = (PerformanceTracker.endOp (PerformanceTracker.start m id t) id
              [("success", Prim.boolean true)] (t + d)).2 := rfl
      rw [hun, he]
    · simp [objOf, objGet_objSet]
  · intro ht err hr
    subst hr
    have he := endOp_eq_of_lookup (PerformanceTracker.start m id t) id
      [("success", Prim.boolean false),
       ("error_message", Prim.str err.messageOrUnknown)] (t + d) t hl
      (Nat.pos_iff_ne_zero.mp ht)
    refine ⟨objOf (("operation", Prim.str id) ::
      ("duration_ms", Prim.num (t + d - t)) ::
      [("success", Prim.boolean false),
       ("error_message", Prim.str err.messageOrUnknown)]), ?_, ?_, ?_⟩
    · have hun : (PerformanceTracker.track (α := α) m id t d (Except.error err)).1.2
          = (PerformanceTracker.endOp (PerformanceTracker.start m id t) id
              [("success", Prim.boolean false),
               ("error_message", Prim.str err.messageOrUnknown)] (t + d)).2 := rfl
      rw [hun, he]
    · simp [objOf, objGet_objSet]
    · simp [objOf, objGet_objSet]

/-- Claim C6 witness: at nonzero clock 7 a resolved operation yields one
success event and its value back; a rejected one yields one failure event
with the message and the same error back. -/
theorem track_semantics_w :
    (∃ p, (PerformanceTracker.track ([] : TimingMap) "op" 7 5
            (Except.ok (42 : Nat))).1.2 = [("performance_metric", p)] ∧
      objGet p "success" = some (Prim.boolean true)) ∧
    (∃ p, (PerformanceTracker.track (α := Nat) ([] : TimingMap) "op" 7 5
            (Except.error (JsError.errObj "boom"))).1.2 = [("performance_metric", p)] ∧
      objGet p "success" = some (Prim.boolean false) ∧
      objGet p "error_message" = some (Prim.str "boom")) := by
  constructor
  · exact (track_semantics ([] : TimingMap) "op" 7 5 (Except.ok (42 : Nat))).2.1
      (by decide) 42 rfl
  · exact (track_semantics (α := Nat) ([] : TimingMap) "op" 7 5
      (Except.error (JsError.errObj "boom"))).2.2 (by decide) (JsError.errObj "boom") rfl

/-! ## Claim theorems: screen-time hook -/

/-- Claim C9, counterexample: focus at 100, blur at 600 — only 500 ms
elapsed, yet `Math.round(500 / 1000) = 1 ≥ 1`, so a `screen_time` event IS
emitted with `time_spent_seconds = 1`, although the claim says an event is
emitted only when at least 1000 ms elapsed. -/
theorem screenTime_half_second_cex :
    (useScreenTime.blur "home" none (useScreenTime.focus 100) 600).2.length = 1 ∧
    (useScreenTime.blur "home" none (useScreenTime.focus 100) 600).2.map Prod.fst
      = ["screen_time"] := by
  decide

/-- Claim C9 (amended): after a focus at `t` and a blur at `t + d`, a
`screen_time` event is emitted iff the rounded elapsed seconds
`Math.round(d / 1000)` is at least 1 — i.e. iff `d ≥ 500` ms, not
`d ≥ 1000` — and when emitted its `time_spent_seconds` is the elapsed time
rounded to the nearest second (half up). -/
theorem screenTime_threshold (name : String) (cls : Option String) (t d : Nat) :
    ((useScreenTime.blur name cls (useScreenTime.focus t) (t + d)).2 ≠ [] ↔ 500 ≤ d) ∧
    (500 ≤ d → ∃ p,
      (useScreenTime.blur name cls (useScreenTime.focus t) (t + d)).2
        = [("screen_time", p)] ∧
      objGet p "time_spent_seconds" = some (Prim.num ((d + 500) / 1000)) ∧
      objGet p "screen_name" = some (Prim.str name) ∧
      objGet p "screen_class" = some (Prim.str (cls.getD name))) := by
  have hd : t + d - t = d := by omega
  have hiff : 1 ≤ roundMsToSeconds d ↔ 500 ≤ d := by
    unfold roundMsToSeconds
    rw [Nat.le_div_iff_mul_le (by norm_num : 0 < 1000)]
    omega
  constructor
  · by_cases h : 500 ≤ d
    · simp [useScreenTime.blur, useScreenTime.focus, hd, hiff.mpr h, h]
    · have : ¬ 1 ≤ roundMsToSeconds d := fun hc => h (hiff.mp hc)
      simp [useScreenTime.blur, useScreenTime.focus, hd, this, h]
  · intro h
    refine ⟨objOf [("screen_name", Prim.str name),
                   ("screen_class", Prim.str (cls.getD name)),
                   ("time_spent_seconds", Prim.num (roundMsToSeconds d))], ?_, ?_, ?_, ?_⟩
    · simp [useScreenTime.blur, useScreenTime.focus, hd, hiff.mpr h]
    · simp [objOf, objGet_objSet, roundMsToSeconds]
    · simp [objOf, objGet_objSet]
    · simp [objOf, objGet_objSet]

/-- Claim C9 witness: a full second elapsed (d = 1000) emits one
`screen_time` event with `time_spent_seconds = 1`. -/
theorem screenTime_threshold_w :
    ∃ p, (useScreenTime.blur "decks" none (useScreenTime.focus 50) (50 + 1000)).2
        = [("screen_time", p)] ∧
      objGet p "time_spent_seconds" = some (Prim.num 1) := by
  obtain ⟨p, h1, h2, h3, h4⟩ :=
    (screenTime_threshold "decks" none 50 1000).2 (by decide)
  exact ⟨p, h1, h2⟩

/-! ## Claim theorems: monolithic facade -/

/-- A load environment where only the native module is present, its
`getAnalytics()` yields handle 1 and no provider call rejects. -/
def envNative : Env :=
  ⟨true, false, .ok (some 1), false, .ok true, none, .error (), fun _ => false⟩

/-- A load environment where only the web module is present, `isSupported`
resolves true, the app and handle are available and no call rejects. -/
def envWeb : Env :=
  ⟨false, true, .ok none, true, .ok true, some 0, .ok 1, fun _ => false⟩

/-- A load environment where neither provider module could be loaded. -/
def envNone : Env :=
  ⟨false, false, .ok none, false, .ok true, none, .error (), fun _ => false⟩

theorem countCall_getAnalytics_setUserProperty (e : Env) (s : SvcState) (k v : String) :
    countCall Call.nativeGetAnalytics
      (FirebaseAnalyticsService.setUserProperty e s k v).2 = 0 := by
  unfold FirebaseAnalyticsService.setUserProperty
  cases s.analytics with
  | none => rfl
  | some h => split_ifs <;> simp [countCall]

/-- Claim C1, counterexample: with the native module available, a first
`init()` completes (`isInitialized = true`), yet a second `init()` still
performs a provider-selection attempt — its own trace contains one more
native `getAnalytics()` call, where the claim requires zero. -/
theorem init_rerun_cex :
    ((FirebaseAnalyticsService.init envNative initState none).1.isInitialized = true) ∧
    (countCall Call.nativeGetAnalytics
      (FirebaseAnalyticsService.init envNative
        (FirebaseAnalyticsService.init envNative initState none).1 none).2 = 1) := by
  decide

/-- Claim C1 (amended): `init()` never gates on the initialized flag — when
the native module is available, every `init()` call, from every facade
state (initialized or not) and with any userId argument, re-runs provider
selection, invoking the native `getAnalytics()` exactly once per call. -/
theorem init_reruns_provider_selection (e : Env) (s : SvcState) (userId : Option String)
    (h : e.nativeAvailable = true) :
    countCall Call.nativeGetAnalytics (FirebaseAnalyticsService.init e s userId).2
      = 1 := by
  unfold FirebaseAnalyticsService.init FirebaseAnalyticsService.initNative
  rw [if_pos h, if_neg (by simp [h])]
  cases e.nativeGetAnalyticsResult with
  | error u => simp [countCall]
  | ok handle =>
      cases userId with
      | none => simp [countCall, countCall_getAnalytics_setUserProperty]
      | some uid =>
          cases handle with
          | none => simp [countCall]
          | some hh =>
              by_cases hth : e.throws (Call.nativeSetUserId hh uid) = true <;>
                simp [hth, countCall, countCall_getAnalytics_setUserProperty]

/-- Claim C1 witness: one concrete `init()` against the available native
module performs exactly one `getAnalytics()` acquisition. -/
theorem init_reruns_provider_selection_w :
    countCall Call.nativeGetAnalytics
      (FirebaseAnalyticsService.init envNative initState (some "u7")).2 = 1 :=
  init_reruns_provider_selection envNative initState (some "u7") rfl

/-- Claim C2, counterexample: in the uninitialized state (no provider
instance), `setUserProperty("theme", "dark")` hits the early
`if (!this.analytics) return;` BEFORE the cache write, so the local
`userProperties` cache is left empty — the claim requires the merge to
happen even without an instance. -/
theorem setUserProperty_skips_cache_cex :
    FirebaseAnalyticsService.setUserProperty envNone initState "theme" "dark"
      = (initState, []) ∧
    objGet (FirebaseAnalyticsService.setUserProperty envNone initState
      "theme" "dark").1.userProperties "theme" = none := by
  decide

/-- Claim C2 (amended): `setUserProperty(k, v)` merges `k = v` into the
local `userProperties` cache exactly when a provider instance exists; when
`this.analytics` is null it is a complete no-op (no cache write, no
provider call).  When the instance exists the cache write happens even if
the subsequent provider call rejects (the write precedes the dispatch and
the catch is silent), which the arbitrary `throws` oracle covers. -/
theorem setUserProperty_cache_semantics (e : Env) (s : SvcState) (key value : String) :
    (s.analytics = none →
      FirebaseAnalyticsService.setUserProperty e s key value = (s, [])) ∧
    (∀ h, s.analytics = some h →
      objGet (FirebaseAnalyticsService.setUserProperty e s key value).1.userProperties
        key = some value) := by
  constructor
  · intro hn
    unfold FirebaseAnalyticsService.setUserProperty
    rw [hn]
  · intro h hs
    unfold FirebaseAnalyticsService.setUserProperty
    rw [hs]
    split_ifs <;> simp [objGet_objSet]

/-- Claim C2 witness: with an instance present the cache holds the merged
value; without one the call left the fresh state untouched. -/
theorem setUserProperty_cache_semantics_w :
    objGet (FirebaseAnalyticsService.setUserProperty envWeb
      ⟨true, none, [], some 1⟩ "theme" "dark").1.userProperties "theme"
      = some "dark" ∧
    FirebaseAnalyticsService.setUserProperty envWeb initState "theme" "dark"
      = (initState, []) := by
  constructor
  · exact (setUserProperty_cache_semantics envWeb ⟨true, none, [], some 1⟩
      "theme" "dark").2 1 rfl
  · exact (setUserProperty_cache_semantics envWeb initState "theme" "dark").1 rfl

/-- Claim C3, counterexample: starting from the state a successful web
`init("user-1")` produced, `clearUserData()` does reset the user id, but
the stored provider instance is NOT destroyed — `this.analytics` is still
the acquired handle, where the claim requires it to be set to null. -/
theorem clearUserData_keeps_instance_cex :
    ((FirebaseAnalyticsService.clearUserData envWeb
        (FirebaseAnalyticsService.init envWeb initState (some "user-1")).1).1.analytics
      = some 1) ∧
    ((FirebaseAnalyticsService.clearUserData envWeb
        (FirebaseAnalyticsService.init envWeb initState (some "user-1")).1).1.userId
      = none) := by
  decide

/-- Claim C3 (amended): when no provider instance is stored,
`clearUserData()` is a complete no-op (so nothing is reset); when an
instance exists and the provider calls succeed, it resets `userId` to
null — so `getCurrentUserId()` then returns null — `userProperties` to the
empty map and `isInitialized` to false, but RETAINS the stored provider
instance (`this.analytics` is never nulled). -/
theorem clearUserData_semantics (e : Env) (s : SvcState) :
    (s.analytics = none → FirebaseAnalyticsService.clearUserData e s = (s, [])) ∧
    (∀ h, s.analytics = some h → (∀ c, e.throws c = false) →
      ((FirebaseAnalyticsService.clearUserData e s).1.userId = none ∧
       FirebaseAnalyticsService.getCurrentUserId
         (FirebaseAnalyticsService.clearUserData e s).1 = none ∧
       (FirebaseAnalyticsService.clearUserData e s).1.userProperties = [] ∧
       (FirebaseAnalyticsService.clearUserData e s).1.isInitialized = false ∧
       (FirebaseAnalyticsService.clearUserData e s).1.analytics = some h)) := by
  constructor
  · intro hn
    unfold FirebaseAnalyticsService.clearUserData
    rw [hn]
  · intro h hs hth
    unfold FirebaseAnalyticsService.clearUserData
    rw [hs]
    split_ifs <;>
      simp_all [FirebaseAnalyticsService.resetLocal,
        FirebaseAnalyticsService.getCurrentUserId]

/-- Claim C3 witness: a populated state with an instance is reset except
for the retained instance. -/
theorem clearUserData_semantics_w :
    (FirebaseAnalyticsService.clearUserData envWeb
      ⟨true, some "u", [("a", "b")], some 5⟩).1.userId = none ∧
    (FirebaseAnalyticsService.clearUserData envWeb
      ⟨true, some "u", [("a", "b")], some 5⟩).1.analytics = some 5 := by
  obtain ⟨h1, h2, h3, h4, h5⟩ :=
    (clearUserData_semantics envWeb ⟨true, some "u", [("a", "b")], some 5⟩).2 5 rfl
      (fun c => rfl)
  exact ⟨h1, h5⟩

/-- Claim C4: in the initial facade state — i.e. before any `init()`
call — `this.analytics` is null, so `logEvent` returns at the
`if (!this.analytics)` guard: the state is unchanged and no provider
method is invoked (the trace is empty; in particular neither module's
`logEvent` is reached), for every event name, parameter map and load
environment. -/
theorem logEvent_before_init_noop (e : Env) (eventName : String) (params : Obj) :
    FirebaseAnalyticsService.logEvent e initState eventName params
      = (initState, []) := rfl

/-! ## Claim theorems: routers -/

/-- Claim C7: for every instance argument (null or bound to either
platform) and every provider behaviour — the `throws` oracle of `e` is
arbitrary, so it includes adapters whose calls reject — the Event Router's
`logEvent` and the User-State Router's `setUserId` / `setUserProperty` /
`clearUserData` return normally (`.ok`): a null instance is an immediate
no-op with no adapter call, and a rejecting adapter call is swallowed by
the router's catch, never surfacing to the caller. -/
theorem routers_never_throw (e : REnv) (inst : Option AnalyticsInstance)
    (name : String) (params : Obj) (uid key value : String) :
    (∃ t, AnalyticsEventService.logEvent e inst name params = .ok t) ∧
    (∃ t, AnalyticsUserService.setUserId e inst uid = .ok t) ∧
    (∃ t, AnalyticsUserService.setUserProperty e inst key value = .ok t) ∧
    (∃ t, AnalyticsUserService.clearUserData e inst = .ok t) ∧
    (AnalyticsEventService.logEvent e none name params = .ok []) ∧
    (AnalyticsUserService.setUserId e none uid = .ok []) ∧
    (AnalyticsUserService.setUserProperty e none key value = .ok []) ∧
    (AnalyticsUserService.clearUserData e none = .ok []) := by
  refine ⟨?_, ?_, ?_, ?_, rfl, rfl, rfl, rfl⟩ <;>
    cases inst with
    | none => exact ⟨[], rfl⟩
    | some a => apply catchSilent_ok

/-- Claim C8: when the instance's adapter is loaded, the User-State
Router's `setUserProperties` dispatches exactly one adapter call per key,
sequentially in entry order, and each key's dispatch is independently
fault-isolated: the environment `e` is arbitrary, so even if the adapter
call for any key rejects (caught inside `setUserProperty`), every later
key is still attempted and the full per-key trace is produced. -/
theorem setUserProperties_per_key_dispatch (e : REnv) (a : AnalyticsInstance)
    (properties : List (String × String)) (h : e.adapterOn a = true) :
    AnalyticsUserService.setUserProperties e (some a) properties
      = .ok (properties.map (AnalyticsUserService.propCall a)) := by
  have hone : ∀ k v, AnalyticsUserService.setUserProperty e (some a) k v
      = .ok [AnalyticsUserService.propCall a (k, v)] := by
    intro k v
    cases hp : a.platform with
    | native =>
        have hn : e.nativeAdapter = true := by
          have hx := h
          unfold REnv.adapterOn at hx
          rw [hp] at hx
          exact hx
        by_cases hth : e.throws (RCall.nSetUserProperties a.inst [(k, v)]) = true <;>
          simp [AnalyticsUserService.setUserProperty,
            AnalyticsUserService.setUserPropertyBody, AnalyticsUserService.propCall,
            catchSilent, hp, hn, hth]
    | web =>
        have hw : e.webAdapter = true := by
          have hx := h
          unfold REnv.adapterOn at hx
          rw [hp] at hx
          exact hx
        by_cases hth : e.throws (RCall.wSetUserProperties a.inst [(k, v)]) = true <;>
          simp [AnalyticsUserService.setUserProperty,
            AnalyticsUserService.setUserPropertyBody, AnalyticsUserService.propCall,
            catchSilent, hp, hw, hth]
  induction properties with
  | nil => rfl
  | cons hd tl ih =>
      obtain ⟨k, v⟩ := hd
      unfold AnalyticsUserService.setUserProperties
      rw [hone k v, ih]
      rfl

/-- Claim C8 witness: two entries against an adapter whose every call
rejects still produce both per-key dispatches, in entry order. -/
theorem setUserProperties_per_key_dispatch_w :
    AnalyticsUserService.setUserProperties ⟨true, false, fun _ => true⟩
      (some ⟨RPlatform.native, 9⟩) [("a", "1"), ("b", "2")]
      = .ok [RCall.nSetUserProperties 9 [("a", "1")],
             RCall.nSetUserProperties 9 [("b", "2")]] :=
  setUserProperties_per_key_dispatch ⟨true, false, fun _ => true⟩
    ⟨RPlatform.native, 9⟩ [("a", "1"), ("b", "2")] rfl

end RNFA
